import Mathlib

/-!
Shallow embedding of the voice-assistant repository (chatbot.py and
weather_adapter.py) and proofs about its intent-dispatch loop and its
weather-lookup adapter.

External collaborators (speech recognition, sentence embedding, the
dialogue model, named-entity recognition, the HTTP stack) are modelled as
function parameters, exactly as the specification treats them: black boxes
with a narrow contract.  Python exceptions are modelled with `Except`;
Python dict / list subscripting failures become explicit error values.
-/

namespace AIChatbot

/-- Python runtime errors that the embedded code can raise. -/
inductive PyErr where
  | keyError
  | indexError
  | typeError
  | attributeError
  | connectionError
  | jsonDecodeError
deriving DecidableEq

/-- A JSON value, the shape of a parsed HTTP response body. -/
inductive Json where
  | null
  | bool (b : Bool)
  | num (q : ℚ)
  | str (s : String)
  | arr (elems : List Json)
  | obj (fields : List (String × Json))

/-- Python subscripting `value[key]` on a parsed JSON value: a KeyError if
the key is missing from a dict, a TypeError if the value is not a dict. -/
def Json.getKey : Json → String → Except PyErr Json
  | .obj fields, k =>
    match fields.lookup k with
    | some v => .ok v
    | none => .error .keyError
  | _, _ => .error .typeError

/-- Python subscripting `value[i]` on a parsed JSON value: an IndexError if
the index is out of range of a list, a TypeError if it is not a list. -/
def Json.getIdx : Json → Nat → Except PyErr Json
  | .arr elems, i =>
    match elems.get? i with
    | some v => .ok v
    | none => .error .indexError
  | _, _ => .error .typeError

/-- Python `str()` of a JSON value, as used by f-string interpolation.
Only the string case is ever reached by the embedded code paths; container
reprs are abbreviated. -/
def Json.pyStr : Json → String
  | .null => "None"
  | .bool b => if b then "True" else "False"
  | .num q => toString q
  | .str s => s
  | .arr _ => "[json list]"
  | .obj _ => "[json dict]"

/-- The result of `requests.get`: an HTTP status code together with the
outcome of calling `.json()` on the body (which itself can raise). -/
structure HttpResponse where
  status_code : Nat
  json : Except PyErr Json

/-- The weather adapter state: an API credential and the fixed base URL
(weather_adapter.py, `__init__`). -/
structure WeatherAdapter where
  api_key : String
  base_url : String
deriving DecidableEq

/-- `WeatherAdapter(api_key)`: stores the credential and the fixed
OpenWeatherMap endpoint. -/
def WeatherAdapter.init (api_key : String) : WeatherAdapter :=
  ⟨api_key, "http://api.openweathermap.org/data/2.5/weather"⟩

/-- The request URL built by `get_weather`:
`f"{base_url}?q={city_name}&appid={api_key}"`. -/
def WeatherAdapter.api_url (self : WeatherAdapter) (city_name : String) : String :=
  self.base_url ++ "?q=" ++ city_name ++ "&appid=" ++ self.api_key

/-- weather_adapter.py `get_weather`.  `http` is the `requests.get`
collaborator (it can raise, e.g. a connection error).  On a 200 response the
code evaluates `response.json()["weather"][0]["description"]` with no
exception handler, so any failure there propagates; on a non-200 response it
returns `None` (here `Option.none`).  The second component is the adapter
state after the call: the method body never assigns to `self`. -/
def WeatherAdapter.get_weather (http : String → Except PyErr HttpResponse)
    (self : WeatherAdapter) (city_name : String) :
    Except PyErr (Option Json) × WeatherAdapter :=
  (match http (self.api_url city_name) with
   | .error e => .error e
   | .ok response =>
     if response.status_code = 200 then
       match response.json with
       | .error e => .error e
       | .ok response_dict =>
         match response_dict.getKey "weather" with
         | .error e => .error e
         | .ok w =>
           match w.getIdx 0 with
           | .error e => .error e
           | .ok w0 =>
             match w0.getKey "description" with
             | .error e => .error e
             | .ok weather => .ok (some weather)
     else .ok none
  , self)

/-- A named-entity span produced by the spaCy collaborator: its label
(e.g. "GPE") and its surface text. -/
structure EntSpan where
  label_ : String
  text : String
deriving DecidableEq

/-- The mutable session state of the chatbot: its display name, the most
recently captured input text, and the termination flag. -/
structure BotState where
  name : String
  text : String
  exit_flag : Bool
deriving DecidableEq

namespace ChatBot

/-- chatbot.py `speech_to_text`: on successful recognition the captured
text becomes the recognized string; on any recognition failure (unknown
value, request error, or other exception) it becomes the sentinel
"ERROR".  `recognized = none` models a failure. -/
def speech_to_text (recognized : Option String) : String :=
  match recognized with
  | some t => t
  | none => "ERROR"

/-- chatbot.py `wake_up`: a greeting naming the bot. -/
def wake_up (s : BotState) : String :=
  "Hello I am " ++ s.name ++ " your AI assistant. Please ask for one thing at a time, I\x27m not all that smart. What can I do for you?"

/-- chatbot.py `sleep`: sets the exit flag and returns a farewell chosen by
`np.random.choice`, modelled by the `pick` collaborator. -/
def sleep (pick : List String → String) (s : BotState) : BotState × String :=
  ({ s with exit_flag := true },
   pick ["Cheerio", "Ta-ta", "Pip-Pip", "Take care, old chap",
         "Until next time", "Ok, off you pop"])

/-- chatbot.py `thank_you`: a random expression of gratitude. -/
def thank_you (pick : List String → String) : String :=
  pick ["You\x27re welcome!", "Anytime!", "No problem!", "Cheers!",
        "All good!", "No worries!", "Don\x27t mention it!",
        "It\x27s nothing!", "My pleasure!", "Happy to help!"]

/-- chatbot.py `get_time`: `datetime.datetime.now().strftime(...)`,
modelled by the `now` collaborator. -/
def get_time (now : String) : String :=
  now

/-- chatbot.py `get_weather` (the ChatBot method): runs the named-entity
recognizer on the captured text, takes the first entity labelled "GPE"
(the loop breaks at the first match), and — if that yields a truthy city
string — queries the weather adapter.  The second component records the
city names passed to the adapter (empty list = adapter never contacted).
An exception raised by the adapter propagates. -/
def get_weather (ner : String → List EntSpan)
    (http : String → Except PyErr HttpResponse) (w : WeatherAdapter)
    (s : BotState) : Except PyErr String × List String :=
  let statement := ner s.text
  let city := (statement.find? (fun ent => ent.label_ = "GPE")).map EntSpan.text
  match city with
  | some c =>
    if c = "" then
      (.ok "I say, old chap, one must specify a city to inquire about the weather.", [])
    else
      match (WeatherAdapter.get_weather http w c).1 with
      | .error e => (.error e, [c])
      | .ok (some city_weather) =>
        (.ok ("Ah, in " ++ c ++ ", one observes the weather to be "
              ++ city_weather.pyStr ++ ". Quite intriguing, wouldn\x27t you agree?"), [c])
      | .ok none =>
        (.ok "My apologies, but I regret to inform you that I was unable to procure the weather information for your request.", [c])
  | none =>
    (.ok "I say, old chap, one must specify a city to inquire about the weather.", [])

end ChatBot

/-- chatbot.py `handle_conversation`, instrumented with collaborator call
counts: (result, number of batched embedding (`encode`) calls, number of
dialogue-engine invocations).

The sentinel "ERROR" short-circuits to a fixed re-prompt before any other
code runs.  Otherwise one batched `encode` call embeds the input plus
every canonical phrase, after which the loop
`for i in expected_input_embeddings[1:]` binds `i` to the embedding rows
themselves, not to indices; on the first iteration the subscript
`expected_input_embeddings[i]` uses a float row tensor as an index and
raises an IndexError, so with a non-empty intent table dispatch raises
before any cosine similarity is computed (the `cos` collaborator —
`util.pytorch_cos_sim` — is never applied).  With an empty table the loop
body never runs, `max_similarity` stays -1 ≤ 0.7, and the fallback
`self.nlp(...)` raises an AttributeError because that attribute is never
assigned (the conversational pipeline is stored as `self.chat`); the
dialogue collaborator `nlp` is therefore never invoked either, and the
role-label stripping line is unreachable. -/
def handle_conversation_traced (embed : String → List ℚ)
    (cos : List ℚ → List ℚ → ℚ) (expected_inputs : List (String × String))
    (nlp : String → String) (text : String) : Except PyErr String × Nat × Nat :=
  if text = "ERROR" then (.ok "Sorry, come again?", 0, 0)
  else
    let keys := expected_inputs.map Prod.fst
    let expected_input_list := text :: keys
    let expected_input_embeddings := expected_input_list.map embed
    match expected_input_embeddings.tail with
    | _ :: _ => (.error .indexError, 1, 0)
    | [] => (.error .attributeError, 1, 0)

/-- chatbot.py `handle_conversation`: the result component (the response
returned, or the error raised). -/
def handle_conversation (embed : String → List ℚ)
    (cos : List ℚ → List ℚ → ℚ) (expected_inputs : List (String × String))
    (nlp : String → String) (text : String) : Except PyErr String :=
  (handle_conversation_traced embed cos expected_inputs nlp text).1

/-- The five intents of the table built in `__init__`. -/
inductive Action where
  | getWeather
  | getTime
  | thankYou
  | closeDown
  | wakeUp
deriving DecidableEq

/-- Invoking one intent action on the session state: the new state and the
response (weather lookup can raise).  Only `closeDown` (the `sleep`
method, bound to the phrase "Close Down") touches the exit flag. -/
def Action.invoke (pick : List String → String) (now : String)
    (ner : String → List EntSpan) (http : String → Except PyErr HttpResponse)
    (w : WeatherAdapter) : Action → BotState → BotState × Except PyErr String
  | .getWeather, s => (s, (ChatBot.get_weather ner http w s).1)
  | .getTime, s => (s, .ok (ChatBot.get_time now))
  | .thankYou, s => (s, .ok (ChatBot.thank_you pick))
  | .closeDown, s => ((ChatBot.sleep pick s).1, .ok (ChatBot.sleep pick s).2)
  | .wakeUp, s => (s, .ok (ChatBot.wake_up s))

/-- The shutdown notice printed when the run loop exits. -/
def closingMsg (s : BotState) : String :=
  "<<<< Closing down " ++ s.name ++ " >>>>"

/-- chatbot.py `run`, fuel-bounded: `while not self.exit_flag:` runs one
iteration (`step`: speech capture, dispatch, speech synthesis); on exit the
shutdown notice is emitted.  `none` means the fuel ran out with the loop
still running (no notice emitted). -/
def ChatBot.loop (step : BotState → BotState) :
    Nat → BotState → Option (BotState × String)
  | 0, s => if s.exit_flag then some (s, closingMsg s) else none
  | n + 1, s => if s.exit_flag then some (s, closingMsg s) else loop step n (step s)

/-- chatbot.py `run`: clears the exit flag, then enters the loop. -/
def ChatBot.run (step : BotState → BotState) (fuel : Nat) (s : BotState) :
    Option (BotState × String) :=
  ChatBot.loop step fuel { s with exit_flag := false }

/-! ### Helper lemmas -/

theorem find_first_gpe {α : Type _} (p : α → Bool) (e : α) (l₂ : List α) :
    ∀ l₁ : List α, (∀ x ∈ l₁, p x = false) → p e = true →
      (l₁ ++ e :: l₂).find? p = some e := by
  intro l₁
  induction l₁ with
  | nil => intro _ he; simpa using List.find?_cons_of_pos l₂ he
  | cons a t ih =>
    intro h he
    rw [List.cons_append, List.find?_cons_of_neg]
    · exact ih (fun x hx => h x (List.mem_cons_of_mem _ hx)) he
    · simp [h a (List.mem_cons_self _ _)]

/-! ### Claim theorems -/

/-- C3: for input equal to the recognition-failure sentinel "ERROR",
dispatch returns the fixed re-prompt string and makes no embedding call
and no dialogue-engine call (both trace counters are zero), so intent
matching is never attempted. -/
theorem handle_conversation_error_sentinel (embed : String → List ℚ)
    (cos : List ℚ → List ℚ → ℚ) (expected_inputs : List (String × String))
    (nlp : String → String) :
    handle_conversation_traced embed cos expected_inputs nlp "ERROR"
      = (.ok "Sorry, come again?", 0, 0)
    ∧ handle_conversation embed cos expected_inputs nlp "ERROR"
      = .ok "Sorry, come again?" := by
  constructor <;> simp [handle_conversation, handle_conversation_traced]

/-- C10: a successfully recognized utterance whose text is exactly "ERROR"
is indistinguishable from a recognition failure: `speech_to_text` yields
the same captured text in both cases, and dispatch on it returns the fixed
re-prompt with no embedding call and no dialogue-engine call. -/
theorem error_text_indistinguishable (embed : String → List ℚ)
    (cos : List ℚ → List ℚ → ℚ) (expected_inputs : List (String × String))
    (nlp : String → String) :
    ChatBot.speech_to_text (some "ERROR") = ChatBot.speech_to_text none
    ∧ handle_conversation_traced embed cos expected_inputs nlp
        (ChatBot.speech_to_text (some "ERROR"))
      = (.ok "Sorry, come again?", 0, 0) := by
  constructor
  · rfl
  · simp [ChatBot.speech_to_text, handle_conversation_traced]

/-- C8: calling the weather adapter twice with the same place and
credential against an unchanged backend (the same `http` collaborator,
threading the adapter state from the first call into the second) yields the
same result both times. -/
theorem get_weather_idempotent (http : String → Except PyErr HttpResponse)
    (w : WeatherAdapter) (city : String) :
    (WeatherAdapter.get_weather http
        (WeatherAdapter.get_weather http w city).2 city).1
      = (WeatherAdapter.get_weather http w city).1 := rfl

/-- C9: `get_weather` leaves the adapter state unchanged — the `api_key`
and `base_url` fields after the call equal their values before the call,
for every response outcome. -/
theorem get_weather_preserves_adapter_state
    (http : String → Except PyErr HttpResponse) (w : WeatherAdapter)
    (city : String) :
    (WeatherAdapter.get_weather http w city).2.api_key = w.api_key
    ∧ (WeatherAdapter.get_weather http w city).2.base_url = w.base_url :=
  ⟨rfl, rfl⟩

/-- C5: the weather adapter requests exactly
`<base_url>?q=<place>&appid=<credential>`, and on a 200 response whose JSON
payload has a `weather` array whose first element has a `description`
field, it returns that description. -/
theorem get_weather_success_description
    (http : String → Except PyErr HttpResponse) (cred place : String)
    (fields f2 : List (String × Json)) (rest : List Json) (d : Json)
    (hurl : http ((WeatherAdapter.init cred).api_url place)
      = .ok ⟨200, .ok (Json.obj fields)⟩)
    (hw : fields.lookup "weather" = some (Json.arr (Json.obj f2 :: rest)))
    (hd : f2.lookup "description" = some d) :
    (WeatherAdapter.init cred).api_url place
      = "http://api.openweathermap.org/data/2.5/weather?q=" ++ place ++ "&appid=" ++ cred
    ∧ (WeatherAdapter.get_weather http (WeatherAdapter.init cred) place).1
      = .ok (some d) := by
  constructor
  · rfl
  · simp only [WeatherAdapter.get_weather, hurl]
    simp [Json.getKey, Json.getIdx, hw, hd]

/-- C5 witness: for place "Paris" with payload
`{"weather":[{"description":"light rain"}]}` the adapter returns
"light rain". -/
theorem get_weather_success_description_witness :
    (WeatherAdapter.get_weather
        (fun _ => .ok ⟨200, .ok (Json.obj [("weather",
            Json.arr [Json.obj [("description", Json.str "light rain")]])])⟩)
        (WeatherAdapter.init "k") "Paris").1 = .ok (some (Json.str "light rain")) :=
  (get_weather_success_description
      (fun _ => .ok ⟨200, .ok (Json.obj [("weather",
          Json.arr [Json.obj [("description", Json.str "light rain")]])])⟩)
      "k" "Paris"
      [("weather", Json.arr [Json.obj [("description", Json.str "light rain")]])]
      [("description", Json.str "light rain")] [] (Json.str "light rain")
      rfl rfl rfl).2

/-- C6 counterexample: the claim that every failure outcome collapses to
the unavailable signal is false — a network failure propagates as an
exception, and a 200 response with a missing `weather` key raises a
KeyError; neither equals the unavailable signal `none`. -/
theorem get_weather_raises_counterexample :
    (WeatherAdapter.get_weather (fun _ => .error .connectionError)
        (WeatherAdapter.init "k") "Paris").1 = .error .connectionError
    ∧ (WeatherAdapter.get_weather (fun _ => .ok ⟨200, .ok (Json.obj [])⟩)
        (WeatherAdapter.init "k") "Paris").1 = .error .keyError
    ∧ (Except.error PyErr.connectionError : Except PyErr (Option Json)) ≠ .ok none
    ∧ (Except.error PyErr.keyError : Except PyErr (Option Json)) ≠ .ok none := by
  refine ⟨rfl, rfl, by simp, by simp⟩

/-- C6 amended: a non-200 response returns the unavailable signal without
raising; but a network failure propagates the underlying exception, and a
200 response with a malformed or missing payload field raises uncaught —
a body that fails to parse propagates the decode error, a missing
`weather` key raises a KeyError, an empty `weather` array raises an
IndexError, and a first element without a `description` field raises a
KeyError. -/
theorem get_weather_failure_behaviour
    (http : String → Except PyErr HttpResponse) (w : WeatherAdapter)
    (city : String) :
    (∀ e, http (w.api_url city) = .error e →
        (WeatherAdapter.get_weather http w city).1 = .error e)
    ∧ (∀ resp, http (w.api_url city) = .ok resp → resp.status_code ≠ 200 →
        (WeatherAdapter.get_weather http w city).1 = .ok none)
    ∧ (∀ resp e, http (w.api_url city) = .ok resp → resp.status_code = 200 →
        resp.json = .error e →
        (WeatherAdapter.get_weather http w city).1 = .error e)
    ∧ (∀ resp fields, http (w.api_url city) = .ok resp →
        resp.status_code = 200 → resp.json = .ok (Json.obj fields) →
        fields.lookup "weather" = none →
        (WeatherAdapter.get_weather http w city).1 = .error .keyError)
    ∧ (∀ resp fields, http (w.api_url city) = .ok resp →
        resp.status_code = 200 → resp.json = .ok (Json.obj fields) →
        fields.lookup "weather" = some (Json.arr []) →
        (WeatherAdapter.get_weather http w city).1 = .error .indexError)
    ∧ (∀ resp fields f2 rest, http (w.api_url city) = .ok resp →
        resp.status_code = 200 → resp.json = .ok (Json.obj fields) →
        fields.lookup "weather" = some (Json.arr (Json.obj f2 :: rest)) →
        f2.lookup "description" = none →
        (WeatherAdapter.get_weather http w city).1 = .error .keyError) := by
  refine ⟨?_, ?_, ?_, ?_, ?_, ?_⟩
  · intro e he
    simp [WeatherAdapter.get_weather, he]
  · intro resp hresp hstatus
    simp [WeatherAdapter.get_weather, hresp, hstatus]
  · intro resp e hresp hstatus hjson
    simp [WeatherAdapter.get_weather, hresp, hstatus, hjson]
  · intro resp fields hresp hstatus hjson hkey
    simp [WeatherAdapter.get_weather, hresp, hstatus, hjson, Json.getKey, hkey]
  · intro resp fields hresp hstatus hjson hkey
    simp [WeatherAdapter.get_weather, hresp, hstatus, hjson, Json.getKey, hkey,
      Json.getIdx]
  · intro resp fields f2 rest hresp hstatus hjson hkey hdesc
    simp [WeatherAdapter.get_weather, hresp, hstatus, hjson, Json.getKey, hkey,
      Json.getIdx, hdesc]

/-- C6 amended witness: a 404 response yields the unavailable signal, and a
network failure yields the propagated connection error. -/
theorem get_weather_failure_behaviour_witness :
    (WeatherAdapter.get_weather (fun _ => .ok ⟨404, .ok Json.null⟩)
        (WeatherAdapter.init "k") "Paris").1 = .ok none
    ∧ (WeatherAdapter.get_weather (fun _ => .error .connectionError)
        (WeatherAdapter.init "b") "Berlin").1 = .error .connectionError :=
  ⟨(get_weather_failure_behaviour _ (WeatherAdapter.init "k") "Paris").2.1
      ⟨404, .ok Json.null⟩ rfl (by decide),
   (get_weather_failure_behaviour _ (WeatherAdapter.init "b") "Berlin").1
      .connectionError rfl⟩

/-- C7: if the captured text yields no usable geopolitical-entity place
name (no "GPE" entity, or a first "GPE" entity with falsy empty text), the
weather intent returns the fixed ask-for-a-city message and the weather
adapter — hence the data source — is never contacted; when a first "GPE"
entity with non-empty text exists, exactly that entity's text is the place
passed to the adapter. -/
theorem chatbot_get_weather_place_extraction
    (ner : String → List EntSpan) (http : String → Except PyErr HttpResponse)
    (w : WeatherAdapter) (s : BotState) :
    ((∀ e ∈ ner s.text, e.label_ ≠ "GPE") →
      ChatBot.get_weather ner http w s
        = (.ok "I say, old chap, one must specify a city to inquire about the weather.", []))
    ∧ (∀ l₁ e l₂, ner s.text = l₁ ++ e :: l₂ → (∀ x ∈ l₁, x.label_ ≠ "GPE") →
        e.label_ = "GPE" → e.text ≠ "" →
        (ChatBot.get_weather ner http w s).2 = [e.text])
    ∧ (∀ l₁ e l₂, ner s.text = l₁ ++ e :: l₂ → (∀ x ∈ l₁, x.label_ ≠ "GPE") →
        e.label_ = "GPE" → e.text = "" →
        ChatBot.get_weather ner http w s
          = (.ok "I say, old chap, one must specify a city to inquire about the weather.", [])) := by
  refine ⟨?_, ?_, ?_⟩
  · intro h
    have hfind : (ner s.text).find? (fun ent => ent.label_ = "GPE") = none :=
      List.find?_eq_none.mpr (fun x hx => by simpa using h x hx)
    simp [ChatBot.get_weather, hfind]
  · intro l₁ e l₂ hner hl₁ hgpe htext
    have hfind : (ner s.text).find? (fun ent => ent.label_ = "GPE") = some e := by
      rw [hner]
      exact find_first_gpe _ e l₂ l₁ (fun x hx => by simpa using hl₁ x hx)
        (by simpa using hgpe)
    cases hres : (WeatherAdapter.get_weather http w e.text).1 with
    | error err => simp [ChatBot.get_weather, hfind, htext, hres]
    | ok v =>
      cases v with
      | some d => simp [ChatBot.get_weather, hfind, htext, hres]
      | none => simp [ChatBot.get_weather, hfind, htext, hres]
  · intro l₁ e l₂ hner hl₁ hgpe htext
    have hfind : (ner s.text).find? (fun ent => ent.label_ = "GPE") = some e := by
      rw [hner]
      exact find_first_gpe _ e l₂ l₁ (fun x hx => by simpa using hl₁ x hx)
        (by simpa using hgpe)
    simp [ChatBot.get_weather, hfind, htext]

/-- C7 witness: a text with only a PERSON entity yields the fixed message
and no adapter call; a text whose first GPE entity is "Paris" results in
the adapter being called exactly on "Paris". -/
theorem chatbot_get_weather_place_extraction_witness :
    ChatBot.get_weather (fun _ => [⟨"PERSON", "Bob"⟩])
        (fun _ => .error .connectionError) (WeatherAdapter.init "k")
        ⟨"J", "hello Bob", false⟩
      = (.ok "I say, old chap, one must specify a city to inquire about the weather.", [])
    ∧ (ChatBot.get_weather (fun _ => [⟨"PERSON", "Bob"⟩, ⟨"GPE", "Paris"⟩])
        (fun _ => .ok ⟨404, .ok Json.null⟩) (WeatherAdapter.init "k")
        ⟨"J", "weather in Paris", false⟩).2 = ["Paris"] := by
  constructor
  · exact (chatbot_get_weather_place_extraction (fun _ => [⟨"PERSON", "Bob"⟩])
      (fun _ => .error .connectionError) (WeatherAdapter.init "k")
      ⟨"J", "hello Bob", false⟩).1 (by decide)
  · exact (chatbot_get_weather_place_extraction
      (fun _ => [⟨"PERSON", "Bob"⟩, ⟨"GPE", "Paris"⟩])
      (fun _ => .ok ⟨404, .ok Json.null⟩) (WeatherAdapter.init "k")
      ⟨"J", "weather in Paris", false⟩).2.1
      [⟨"PERSON", "Bob"⟩] ⟨"GPE", "Paris"⟩ [] rfl (by decide) rfl (by decide)

/-- C4: invoking the "Close Down" action (the `sleep` method) sets the
termination flag; invoking any other action leaves the flag unchanged
(hence false if it was false), so "Close Down" is the only action that
sets it; and the run loop exits emitting the shutdown notice exactly when
the flag is set — whenever the loop exits, the final state has the flag
set and the notice is emitted, and a set flag makes the loop exit
immediately with the notice. -/
theorem close_down_only_sets_exit_flag (pick : List String → String)
    (now : String) (ner : String → List EntSpan)
    (http : String → Except PyErr HttpResponse) (w : WeatherAdapter)
    (s : BotState) :
    (Action.invoke pick now ner http w .closeDown s).1.exit_flag = true
    ∧ (∀ a : Action, a ≠ .closeDown →
        (Action.invoke pick now ner http w a s).1.exit_flag = s.exit_flag)
    ∧ (∀ (step : BotState → BotState) (fuel : Nat) (s₀ : BotState)
        (out : BotState × String), ChatBot.loop step fuel s₀ = some out →
        out.1.exit_flag = true ∧ out.2 = closingMsg out.1)
    ∧ (∀ (step : BotState → BotState) (fuel : Nat) (s₀ : BotState),
        s₀.exit_flag = true →
        ChatBot.loop step fuel s₀ = some (s₀, closingMsg s₀)) := by
  refine ⟨rfl, ?_, ?_, ?_⟩
  · intro a ha
    cases a with
    | closeDown => exact absurd rfl ha
    | getWeather => rfl
    | getTime => rfl
    | thankYou => rfl
    | wakeUp => rfl
  · intro step fuel
    induction fuel with
    | zero =>
      intro s₀ out h
      rw [ChatBot.loop] at h
      by_cases hf : s₀.exit_flag = true
      · rw [if_pos hf] at h
        cases h
        exact ⟨hf, rfl⟩
      · rw [if_neg hf] at h
        exact Option.noConfusion h
    | succ n ih =>
      intro s₀ out h
      rw [ChatBot.loop] at h
      by_cases hf : s₀.exit_flag = true
      · rw [if_pos hf] at h
        cases h
        exact ⟨hf, rfl⟩
      · rw [if_neg hf] at h
        exact ih (step s₀) out h
  · intro step fuel s₀ h
    cases fuel with
    | zero => rw [ChatBot.loop, if_pos h]
    | succ n => rw [ChatBot.loop, if_pos h]

/-- C4 witness: invoking "Close Down" on a state with a clear flag sets
it; invoking "Wake Up" leaves it false; the loop started with the flag set
exits at once with the shutdown notice. -/
theorem close_down_only_sets_exit_flag_witness :
    (Action.invoke (fun _ => "") "" (fun _ => [])
        (fun _ => .error .connectionError) (WeatherAdapter.init "")
        Action.closeDown ⟨"Jarvis", "hi", false⟩).1.exit_flag = true
    ∧ (Action.invoke (fun _ => "") "" (fun _ => [])
        (fun _ => .error .connectionError) (WeatherAdapter.init "")
        Action.wakeUp ⟨"Jarvis", "hi", false⟩).1.exit_flag = false
    ∧ ChatBot.loop id 3 ⟨"Jarvis", "hi", true⟩
        = some (⟨"Jarvis", "hi", true⟩, closingMsg ⟨"Jarvis", "hi", true⟩) := by
  refine ⟨?_, ?_, ?_⟩
  · exact (close_down_only_sets_exit_flag (fun _ => "") "" (fun _ => [])
      (fun _ => .error .connectionError) (WeatherAdapter.init "")
      ⟨"Jarvis", "hi", false⟩).1
  · exact (close_down_only_sets_exit_flag (fun _ => "") "" (fun _ => [])
      (fun _ => .error .connectionError) (WeatherAdapter.init "")
      ⟨"Jarvis", "hi", false⟩).2.1 Action.wakeUp (by decide)
  · exact (close_down_only_sets_exit_flag (fun _ => "") "" (fun _ => [])
      (fun _ => .error .connectionError) (WeatherAdapter.init "")
      ⟨"Jarvis", "hi", false⟩).2.2.2 id 3 ⟨"Jarvis", "hi", true⟩ rfl

/-- C1 (code bug): the claim matches the dispatch method's own docstring,
but the code cannot perform it: for any captured text other than the
sentinel, with a non-empty intent table, the loop over
`expected_input_embeddings[1:]` binds the loop variable to an embedding
row and immediately subscripts the embeddings tensor with it, raising an
IndexError after the single batched embedding call and before any
similarity comparison or action lookup, so dispatch never returns a bound
action's result. -/
theorem handle_conversation_dispatch_raises
    (embed : String → List ℚ) (cos : List ℚ → List ℚ → ℚ)
    (nlp : String → String) (text : String) (q : String × String)
    (rest : List (String × String)) (htext : text ≠ "ERROR") :
    handle_conversation_traced embed cos (q :: rest) nlp text
      = (.error .indexError, 1, 0) := by
  unfold handle_conversation_traced
  rw [if_neg htext]
  rfl

/-- C1 witness: at the captured text "Close Down" with the program's
five-phrase intent table (values are the strings materialized at startup),
dispatch raises an IndexError instead of invoking the Close Down action. -/
theorem handle_conversation_dispatch_raises_witness :
    handle_conversation_traced (fun s => [(s.data.length : ℚ)]) (fun _ _ => 1)
      [("Current Weather in the city", "w"), ("What is the time?", "t"),
       ("Thank you", "y"), ("Close Down", "c"), ("Wake Up \x7bself.name\x7d", "u")]
      (fun t => t) "Close Down" = (.error .indexError, 1, 0) :=
  handle_conversation_dispatch_raises (fun s => [(s.data.length : ℚ)])
    (fun _ _ => 1) (fun t => t) "Close Down"
    ("Current Weather in the city", "w")
    [("What is the time?", "t"), ("Thank you", "y"), ("Close Down", "c"),
     ("Wake Up \x7bself.name\x7d", "u")] (by decide)

/-- C2 (code bug): dispatch never delegates to the dialogue engine.  The
only way the below-threshold fallback is reachable is an empty intent
table (a non-empty one raises in the loop first), and there the fallback
line accesses `self.nlp`, an attribute that is never assigned (the
pipeline is stored in `self.chat`), raising an AttributeError; moreover
for every input and every table the dialogue-engine invocation counter is
0, so no (prefix-stripped) engine reply is ever returned. -/
theorem handle_conversation_fallback_raises
    (embed : String → List ℚ) (cos : List ℚ → List ℚ → ℚ)
    (nlp : String → String) (text : String) (htext : text ≠ "ERROR") :
    handle_conversation_traced embed cos [] nlp text
      = (.error .attributeError, 1, 0)
    ∧ ∀ (expected_inputs : List (String × String)) (t : String),
        (handle_conversation_traced embed cos expected_inputs nlp t).2.2 = 0 := by
  constructor
  · unfold handle_conversation_traced
    rw [if_neg htext]
    rfl
  · intro expected_inputs t
    by_cases ht : t = "ERROR"
    · unfold handle_conversation_traced
      rw [if_pos ht]
    · cases expected_inputs with
      | nil =>
        unfold handle_conversation_traced
        rw [if_neg ht]
        rfl
      | cons q rest =>
        unfold handle_conversation_traced
        rw [if_neg ht]
        rfl

/-- C2 witness: at the low-similarity captured text "what is love" with an
empty table the fallback raises an AttributeError, and with the program's
table the dialogue-engine counter is still 0. -/
theorem handle_conversation_fallback_raises_witness :
    handle_conversation_traced (fun _ => [0]) (fun _ _ => 0) []
      (fun t => "bot >> " ++ t) "what is love"
      = (.error .attributeError, 1, 0)
    ∧ (handle_conversation_traced (fun _ => [0]) (fun _ _ => 0)
        [("Thank you", "y")] (fun t => "bot >> " ++ t) "what is love").2.2
      = 0 :=
  ⟨(handle_conversation_fallback_raises (fun _ => [0]) (fun _ _ => 0)
      (fun t => "bot >> " ++ t) "what is love" (by decide)).1,
   (handle_conversation_fallback_raises (fun _ => [0]) (fun _ _ => 0)
      (fun t => "bot >> " ++ t) "what is love" (by decide)).2
      [("Thank you", "y")] "what is love"⟩

end AIChatbot
